import Mathlib

/-!
Verification development for the esp-uffs SPI NAND port layer and its
flash simulators.

The definitions below are shallow embeddings of:
  * `src/port/esp_spi_nand_common.c`  (command protocol executor and the
    generic page read / write / erase operations),
  * `src/port/esp_spi_nand.c`         (driver identification table),
  * `src/port/esp_spi_nand_winbond.c` (Winbond constructor and initialize),
  * `src/test_apps/host_test/components/driver/mock_spi_master.c`
    (static-array flash simulator, `Sim1` below),
  * `src/test_apps/host_test/components/mock_driver/mock_spi_master.c`
    (sparse lazily-allocated flash simulator, `Sim2` below).

Machine integers are modelled as `Nat` with explicit masking where the C
code masks; byte buffers are modelled as total functions `Nat → Nat`
(the C array extent is respected by every update, i.e. `memcpy` /
`memset` only change indices inside the array bounds).  The SPI bus is
an abstract state machine (`Bus`); the simulators instantiate it, and
adversarial buses are used to explore every status byte / failure
behaviour.  `malloc` failure in the sparse simulator is modelled by
boolean allocation oracles.  The busy-wait loop is given explicit fuel;
`none` means the loop did not exit within that many polls, and the
termination theorem shows a fuel of `timeout / tick + 2` always
suffices (one `vTaskDelay(1)` tick elapses per poll iteration).
-/

namespace EspUffs

/-- esp_err_t success code. -/
def ESP_OK : Int := 0

/-- esp_err_t generic failure. -/
def ESP_FAIL : Int := -1

/-- esp_err_t allocation failure. -/
def ESP_ERR_NO_MEM : Int := 0x101

/-- esp_err_t invalid-argument failure. -/
def ESP_ERR_INVALID_ARG : Int := 0x102

/-- esp_err_t timeout failure. -/
def ESP_ERR_TIMEOUT : Int := 0x107

/-- Command opcodes from esp_spi_nand_common.h. -/
def CMD_RESET : Nat := 0xFF

/-- Get-feature opcode. -/
def CMD_GET_FEATURE : Nat := 0x0F

/-- Set-feature opcode. -/
def CMD_SET_FEATURE : Nat := 0x1F

/-- Read-id opcode. -/
def CMD_READ_ID : Nat := 0x9F

/-- Page-read-to-cache opcode. -/
def CMD_PAGE_READ : Nat := 0x13

/-- Read-from-cache opcode. -/
def CMD_READ_CACHE : Nat := 0x03

/-- Write-enable opcode. -/
def CMD_WRITE_ENABLE : Nat := 0x06

/-- Program-load opcode. -/
def CMD_PROGRAM_LOAD : Nat := 0x02

/-- Random-data-input opcode. -/
def CMD_RANDOM_DATA_INPUT : Nat := 0x84

/-- Program-execute opcode. -/
def CMD_PROGRAM_EXECUTE : Nat := 0x10

/-- Block-erase opcode. -/
def CMD_BLOCK_ERASE : Nat := 0xD8

/-- Status register feature address. -/
def REG_STATUS : Nat := 0xC0

/-- Block-lock feature address. -/
def REG_BLOCK_LOCK : Nat := 0xA0

/-- Status bit 0: operation in progress. -/
def SR_BUSY : Nat := 1

/-- Status bit 1: write enable latch. -/
def SR_WEL : Nat := 2

/-- Status bit 2: erase fail. -/
def SR_E_FAIL : Nat := 4

/-- Status bit 3: program fail. -/
def SR_P_FAIL : Nat := 8

/-- Generic 2-bit ECC field mask (bits 5:4). -/
def SR_ECC_MASK : Nat := 0x30

/-- Default busy-wait timeout in milliseconds. -/
def NAND_TIMEOUT_MS : Nat := 500

/-- An abstract SPI bus: a state type and one blocking full-duplex
exchange.  `transmit s tx rx rxLen` returns the esp_err_t code, the new
bus state, and the caller's receive buffer after the exchange (the bus
may overwrite any of its first `rxLen` bytes and must leave the rest). -/
structure Bus where
  S : Type
  transmit : S → List Nat → (Nat → Nat) → Nat → Int × S × (Nat → Nat)

/-- Result of one spi_nand_wait_busy call: the esp_err_t code, the final
value of the local `status` variable, the contents of the caller's
`*status_out` location, and the bus state. -/
structure WaitRes (S : Type) where
  err : Int
  status : Nat
  loc : Nat
  bus : S

/-- The polling loop of `spi_nand_wait_busy` (esp_spi_nand_common.c).
Each iteration transmits the 2-byte status read `{CMD_GET_FEATURE,
REG_STATUS}` receiving 1 byte into the local `status` variable, returns
the error code of a failed exchange at once, stores the status through
`status_out` (modelled by `outp` / `loc`) and succeeds when the busy bit
is clear, or fails with `ESP_ERR_TIMEOUT` once `n * tick_ms >
timeout_ms` where `n` counts the elapsed `vTaskDelay(1)` ticks.  `fuel`
bounds the number of polls; `none` means the bound was hit. -/
def waitBusyLoop (B : Bus) (timeout_ms tick_ms : Nat) (outp : Bool) :
    Nat → Nat → Nat → Nat → B.S → Option (WaitRes B.S)
  | 0, _, _, _, _ => none
  | fuel + 1, n, status, loc, s =>
    let t := B.transmit s [CMD_GET_FEATURE, REG_STATUS]
      (fun i => if i = 0 then status else 0) 1
    let status1 := t.2.2 0
    if t.1 ≠ ESP_OK then some ⟨t.1, status1, loc, t.2.1⟩
    else if status1 &&& SR_BUSY = 0 then
      some ⟨ESP_OK, status1, if outp then status1 else loc, t.2.1⟩
    else if n * tick_ms > timeout_ms then
      some ⟨ESP_ERR_TIMEOUT, status1, loc, t.2.1⟩
    else
      waitBusyLoop B timeout_ms tick_ms outp fuel (n + 1) status1 loc t.2.1

/-- Fuel sufficient for `waitBusyLoop` to decide (proved below). -/
def waitFuel (timeout_ms tick_ms : Nat) : Nat := timeout_ms / tick_ms + 2

/-- spi_nand_wait_busy from esp_spi_nand_common.c.  `status0` is the
(uninitialised) initial value of the local `status` variable, `loc` the
initial contents of the caller's `status_out` byte, `outp` whether
`status_out` is non-null. -/
def spi_nand_wait_busy (B : Bus) (timeout_ms tick_ms : Nat) (outp : Bool)
    (status0 loc : Nat) (s : B.S) : Option (WaitRes B.S) :=
  waitBusyLoop B timeout_ms tick_ms outp (waitFuel timeout_ms tick_ms) 0 status0 loc s

/-- spi_nand_op from esp_spi_nand_common.c: a single exchange, or an
immediate ESP_OK when both lengths are zero. -/
def spi_nand_op (B : Bus) (s : B.S) (tx : List Nat) (rxLen : Nat)
    (rxBuf : Nat → Nat) : Int × B.S × (Nat → Nat) :=
  if tx.length = 0 ∧ rxLen = 0 then (ESP_OK, s, rxBuf)
  else B.transmit s tx rxBuf rxLen

/-- spi_nand_write_enable from esp_spi_nand_common.c. -/
def spi_nand_write_enable (B : Bus) (s : B.S) : Int × B.S :=
  let r := spi_nand_op B s [CMD_WRITE_ENABLE] 0 (fun _ => 0)
  (r.1, r.2.1)

/-- UFFS flash-operation result codes, kept symbolic (uffs_flash.h is an
external collaborator; only the identity of the code matters here). -/
inductive FlashResult where
  | NO_ERR
  | ECC_OK
  | ECC_FAIL
  | IO_ERR
  | BAD_BLK
  deriving DecidableEq, Repr

/-- spi_nand_priv_t from esp_spi_nand_common.h (the bus handle is the
`Bus` state passed separately). -/
structure SpiNandPriv where
  page_size : Nat
  spare_size : Nat
  block_size : Nat
  total_blocks : Nat
  deriving DecidableEq, Repr

/-- uffs_spi_nand_read_page_generic from esp_spi_nand_common.c.
`dataPresent` / `sparePresent` model non-null `data` / `spare` pointers;
the buffers are returned so that frame properties can be stated.  The
result also carries the final bus state.  `none` only when the inner
busy-wait exhausted its fuel. -/
def uffs_spi_nand_read_page_generic (B : Bus) (tick_ms : Nat)
    (priv : SpiNandPriv) (block page : Nat)
    (dataPresent : Bool) (dataBuf : Nat → Nat) (data_len : Nat)
    (sparePresent : Bool) (spareBuf : Nat → Nat) (spare_len : Nat)
    (s : B.S) : Option (FlashResult × (Nat → Nat) × (Nat → Nat) × B.S) :=
  let page_addr := (block * priv.block_size + page) % 2 ^ 32
  let cmd_read := [CMD_PAGE_READ, (page_addr >>> 16) &&& 0xFF,
    (page_addr >>> 8) &&& 0xFF, page_addr &&& 0xFF]
  let r1 := spi_nand_op B s cmd_read 0 (fun _ => 0)
  if r1.1 ≠ ESP_OK then some (.IO_ERR, dataBuf, spareBuf, r1.2.1) else
  match spi_nand_wait_busy B NAND_TIMEOUT_MS tick_ms true 0 0 r1.2.1 with
  | none => none
  | some w =>
    if w.err ≠ ESP_OK then some (.IO_ERR, dataBuf, spareBuf, w.bus) else
    let status := w.loc
    let ecc_stat := (status &&& SR_ECC_MASK) >>> 4
    if ecc_stat = 2 then some (.ECC_FAIL, dataBuf, spareBuf, w.bus) else
    let ecc_res : FlashResult :=
      if ecc_stat = 1 ∨ ecc_stat = 3 then .ECC_OK else .NO_ERR
    let r2 :=
      if dataPresent ∧ 0 < data_len then
        B.transmit w.bus [CMD_READ_CACHE, 0, 0, 0] dataBuf data_len
      else (ESP_OK, w.bus, dataBuf)
    if r2.1 ≠ ESP_OK then some (.IO_ERR, r2.2.2, spareBuf, r2.2.1) else
    let r3 :=
      if sparePresent ∧ 0 < spare_len then
        let col := priv.page_size % 2 ^ 16
        B.transmit r2.2.1 [CMD_READ_CACHE, (col >>> 8) &&& 0xFF,
          col &&& 0xFF, 0] spareBuf spare_len
      else (ESP_OK, r2.2.1, spareBuf)
    if r3.1 ≠ ESP_OK then some (.IO_ERR, r2.2.2, r3.2.2, r3.2.1) else
    some (ecc_res, r2.2.2, r3.2.2, r3.2.1)

/-- uffs_spi_nand_write_page_generic from esp_spi_nand_common.c.  The
payload byte sequences transmitted in the data phases are `data` and
`spare` (list length standing for `data_len` / `spare_len`). -/
def uffs_spi_nand_write_page_generic (B : Bus) (tick_ms : Nat)
    (priv : SpiNandPriv) (block page : Nat)
    (dataPresent : Bool) (data : List Nat)
    (sparePresent : Bool) (spare : List Nat)
    (s : B.S) : Option (FlashResult × B.S) :=
  let page_addr := (block * priv.block_size + page) % 2 ^ 32
  let r1 := spi_nand_write_enable B s
  if r1.1 ≠ ESP_OK then some (.IO_ERR, r1.2) else
  let r2 :=
    if dataPresent ∧ 0 < data.length then
      let t1 := B.transmit r1.2 [CMD_PROGRAM_LOAD, 0, 0] (fun _ => 0) 0
      if t1.1 ≠ ESP_OK then (t1.1, t1.2.1) else
      let t2 := B.transmit t1.2.1 data (fun _ => 0) 0
      (t2.1, t2.2.1)
    else (ESP_OK, r1.2)
  if r2.1 ≠ ESP_OK then some (.IO_ERR, r2.2) else
  let r3 :=
    if sparePresent ∧ 0 < spare.length then
      let cmd_code :=
        if dataPresent ∧ 0 < data.length then CMD_RANDOM_DATA_INPUT
        else CMD_PROGRAM_LOAD
      let col := priv.page_size % 2 ^ 16
      let t1 := B.transmit r2.2 [cmd_code, (col >>> 8) &&& 0xFF, col &&& 0xFF]
        (fun _ => 0) 0
      if t1.1 ≠ ESP_OK then (t1.1, t1.2.1) else
      let t2 := B.transmit t1.2.1 spare (fun _ => 0) 0
      (t2.1, t2.2.1)
    else (ESP_OK, r2.2)
  if r3.1 ≠ ESP_OK then some (.IO_ERR, r3.2) else
  let cmd_exec := [CMD_PROGRAM_EXECUTE, (page_addr >>> 16) &&& 0xFF,
    (page_addr >>> 8) &&& 0xFF, page_addr &&& 0xFF]
  let r4 := spi_nand_op B r3.2 cmd_exec 0 (fun _ => 0)
  if r4.1 ≠ ESP_OK then some (.IO_ERR, r4.2.1) else
  match spi_nand_wait_busy B NAND_TIMEOUT_MS tick_ms true 0 0 r4.2.1 with
  | none => none
  | some w =>
    if w.err ≠ ESP_OK then some (.IO_ERR, w.bus) else
    if w.loc &&& SR_P_FAIL ≠ 0 then some (.BAD_BLK, w.bus)
    else some (.NO_ERR, w.bus)

/-- uffs_spi_nand_erase_block_generic from esp_spi_nand_common.c. -/
def uffs_spi_nand_erase_block_generic (B : Bus) (tick_ms : Nat)
    (priv : SpiNandPriv) (block : Nat) (s : B.S) :
    Option (FlashResult × B.S) :=
  let page_addr := (block * priv.block_size) % 2 ^ 32
  let r1 := spi_nand_write_enable B s
  if r1.1 ≠ ESP_OK then some (.IO_ERR, r1.2) else
  let cmd_erase := [CMD_BLOCK_ERASE, (page_addr >>> 16) &&& 0xFF,
    (page_addr >>> 8) &&& 0xFF, page_addr &&& 0xFF]
  let r2 := spi_nand_op B r1.2 cmd_erase 0 (fun _ => 0)
  if r2.1 ≠ ESP_OK then some (.IO_ERR, r2.2.1) else
  match spi_nand_wait_busy B NAND_TIMEOUT_MS tick_ms true 0 0 r2.2.1 with
  | none => none
  | some w =>
    if w.err ≠ ESP_OK then some (.IO_ERR, w.bus) else
    if w.loc &&& SR_E_FAIL ≠ 0 then some (.BAD_BLK, w.bus)
    else some (.NO_ERR, w.bus)

/-- uffs_winbond_init_flash from esp_spi_nand_winbond.c: reset, busy
wait with a null `status_out`, block-lock unlock write; the results of
all three exchanges are discarded and 0 is returned.  `none` only when
the busy-wait exhausted its fuel. -/
def uffs_winbond_init_flash (B : Bus) (tick_ms : Nat) (s : B.S) :
    Option (Int × B.S) :=
  let r1 := spi_nand_op B s [CMD_RESET] 0 (fun _ => 0)
  match spi_nand_wait_busy B NAND_TIMEOUT_MS tick_ms false 0 0 r1.2.1 with
  | none => none
  | some w =>
    let r2 := spi_nand_op B w.bus [CMD_SET_FEATURE, REG_BLOCK_LOCK, 0x00] 0
      (fun _ => 0)
    some (0, r2.2.1)

/-- uffs_ECC option from the storage attribute record. -/
inductive EccOpt where
  | eccNone
  | eccHwAuto
  deriving DecidableEq, Repr

/-- The fields of uffs_StorageAttrSt populated by the constructors. -/
structure StorageAttr where
  page_data_size : Nat
  spare_size : Nat
  pages_per_block : Nat
  total_blocks : Nat
  block_status_offs : Nat
  ecc_opt : EccOpt
  deriving DecidableEq, Repr

/-- Presence of the optional capability-table slots a constructor
fills. -/
structure CapTable where
  hasInitFlash : Bool
  hasCustomReadPage : Bool
  hasWritePageWithLayout : Bool
  deriving DecidableEq, Repr

/-- The driver constructors of the identification table in
esp_spi_nand.c. -/
inductive DriverSel where
  | winbond
  | gd
  | micron
  | alliance
  | zetta
  | xtx
  | generic
  deriving DecidableEq, Repr

/-- The static `drivers[]` registry of esp_spi_nand.c, in source
order. -/
def drivers : List (Nat × DriverSel) :=
  [(0xEF, .winbond), (0xC8, .gd), (0x2C, .micron),
   (0x52, .alliance), (0xBA, .zetta), (0x0B, .xtx)]

/-- The linear scan of the registry performed by esp_uffs_spi_nand_init
(first match wins, `none` when the manufacturer id is absent). -/
def findDriver (mfr : Nat) : Option DriverSel :=
  (drivers.find? (fun d => d.1 = mfr)).map (fun d => d.2)

/-- uffs_spi_nand_init_generic from esp_spi_nand.c (the
CONFIG_MOCK_FLASH_SIZE_BLOCKS branch is not configured, so
total_blocks = 1024).  `allocOk` models the three calloc calls. -/
def uffs_spi_nand_init_generic (allocOk : Bool) :
    Int × Option (StorageAttr × CapTable) :=
  if ¬ allocOk then (ESP_ERR_NO_MEM, none)
  else (ESP_OK, some (⟨2048, 64, 64, 1024, 0, .eccNone⟩,
    ⟨false, false, false⟩))

/-- uffs_spi_nand_init_winbond from esp_spi_nand_winbond.c. -/
def uffs_spi_nand_init_winbond (allocOk : Bool) :
    Int × Option (StorageAttr × CapTable) :=
  if ¬ allocOk then (ESP_ERR_NO_MEM, none)
  else (ESP_OK, some (⟨2048, 64, 64, 1024, 0, .eccHwAuto⟩,
    ⟨true, false, true⟩))

/-- uffs_spi_nand_init_gd from esp_spi_nand_gd.c (custom read-page with
the 3-bit GD ECC decode). -/
def uffs_spi_nand_init_gd (allocOk : Bool) :
    Int × Option (StorageAttr × CapTable) :=
  if ¬ allocOk then (ESP_ERR_NO_MEM, none)
  else (ESP_OK, some (⟨2048, 64, 64, 1024, 0, .eccHwAuto⟩,
    ⟨true, true, true⟩))

/-- uffs_spi_nand_init_micron from esp_spi_nand_micron.c. -/
def uffs_spi_nand_init_micron (allocOk : Bool) :
    Int × Option (StorageAttr × CapTable) :=
  if ¬ allocOk then (ESP_ERR_NO_MEM, none)
  else (ESP_OK, some (⟨2048, 64, 64, 1024, 0, .eccHwAuto⟩,
    ⟨true, true, true⟩))

/-- uffs_spi_nand_init_alliance from esp_spi_nand_alliance.c. -/
def uffs_spi_nand_init_alliance (allocOk : Bool) :
    Int × Option (StorageAttr × CapTable) :=
  if ¬ allocOk then (ESP_ERR_NO_MEM, none)
  else (ESP_OK, some (⟨2048, 64, 64, 1024, 0, .eccHwAuto⟩,
    ⟨true, false, true⟩))

/-- uffs_spi_nand_init_xtx from esp_spi_nand_xtx.c (128 blocks). -/
def uffs_spi_nand_init_xtx (allocOk : Bool) :
    Int × Option (StorageAttr × CapTable) :=
  if ¬ allocOk then (ESP_ERR_NO_MEM, none)
  else (ESP_OK, some (⟨2048, 64, 64, 128, 0, .eccHwAuto⟩,
    ⟨true, false, true⟩))

/-- Dispatch to the constructor selected by the registry.  The Zetta
constructor is declared in esp_spi_nand_types.h but its definition is
not part of the sources, so it is left unmodelled (`none`). -/
def runConstructor (sel : DriverSel) (allocOk : Bool) :
    Option (Int × Option (StorageAttr × CapTable)) :=
  match sel with
  | .winbond => some (uffs_spi_nand_init_winbond allocOk)
  | .gd => some (uffs_spi_nand_init_gd allocOk)
  | .micron => some (uffs_spi_nand_init_micron allocOk)
  | .alliance => some (uffs_spi_nand_init_alliance allocOk)
  | .zetta => none
  | .xtx => some (uffs_spi_nand_init_xtx allocOk)
  | .generic => some (uffs_spi_nand_init_generic allocOk)

/-- esp_uffs_spi_nand_init from esp_spi_nand.c, after the id read:
`mfr` is byte 0 of the id exchange (whose esp_err_t result the source
discards).  Returns the selected constructor and its outcome. -/
def esp_uffs_spi_nand_init (mfr : Nat) (allocOk : Bool) :
    DriverSel × Option (Int × Option (StorageAttr × CapTable)) :=
  match findDriver mfr with
  | some sel => (sel, runConstructor sel allocOk)
  | none => (.generic, runConstructor .generic allocOk)

/-- Mock flash page-data size (both simulators). -/
def MOCK_PAGE_SIZE : Nat := 2048

/-- Mock flash spare size. -/
def MOCK_SPARE_SIZE : Nat := 64

/-- Mock flash pages per block. -/
def MOCK_PAGES_PER_BLOCK : Nat := 64

/-- Mock flash block count of the static-array simulator. -/
def MOCK_TOTAL_BLOCKS : Nat := 1024

/-- Cache register size = page + spare. -/
def MOCK_CACHE_SIZE : Nat := MOCK_PAGE_SIZE + MOCK_SPARE_SIZE

/-- mock_page_t: one simulated page.  The byte arrays are modelled as
total functions; updates only touch indices below the C array extents
(2048 resp. 64). -/
structure MockPage where
  data : Nat → Nat
  spare : Nat → Nat
  is_erased : Bool

/-- A freshly erased page (all-ones data and spare). -/
def erasedPage : MockPage := ⟨fun _ => 0xFF, fun _ => 0xFF, true⟩

/-- Overwrite `len` bytes of `f` starting at `start` with the bytes of
`bs` (modelling `memcpy(f + start, bs, len)` with `len ≤ bs.length`). -/
def writeBytes (f : Nat → Nat) (start : Nat) (bs : List Nat) : Nat → Nat :=
  fun k => if start ≤ k ∧ k < start + bs.length then bs.getD (k - start) 0
    else f k

/-- Overwrite indices `[start, start+len)` of `f` with `v`
(modelling `memset`). -/
def fillBytes (f : Nat → Nat) (start len v : Nat) : Nat → Nat :=
  fun k => if start ≤ k ∧ k < start + len then v else f k

/-- State of the static-array flash simulator
(src/test_apps/host_test/components/driver/mock_spi_master.c): the
`flash_mem` grid, the cache register and the transport-session
variables. -/
structure Sim1 where
  flash : Nat → Nat → MockPage
  cache : Nat → Nat
  status_reg : Nat
  write_enabled : Bool
  data_input : Bool
  col : Nat
  mfr_id : Nat

/-- mock_nand_reset of the static simulator: every page all-ones and
erased, cache all-ones, status 0, latch clear, idle, id 0xEF. -/
def sim1_reset : Sim1 :=
  ⟨fun _ _ => erasedPage, fun _ => 0xFF, 0, false, false, 0, 0xEF⟩

/-- Copy the addressed page into the cache register (the two memcpy
calls of CMD_PAGE_READ). -/
def pageToCache (p : MockPage) (cache : Nat → Nat) : Nat → Nat :=
  fun k => if k < MOCK_PAGE_SIZE then p.data k
    else if k < MOCK_CACHE_SIZE then p.spare (k - MOCK_PAGE_SIZE)
    else cache k

/-- AND-merge the cache register into a page (the two loops of
CMD_PROGRAM_EXECUTE) and mark it not erased. -/
def programPage (p : MockPage) (cache : Nat → Nat) : MockPage :=
  ⟨fun i => if i < MOCK_PAGE_SIZE then p.data i &&& cache i else p.data i,
   fun i => if i < MOCK_SPARE_SIZE then p.spare i &&& cache (MOCK_PAGE_SIZE + i)
     else p.spare i,
   false⟩

/-- Reset a page to all-ones and mark it erased (the memset pair of
CMD_BLOCK_ERASE). -/
def erasePage (p : MockPage) : MockPage :=
  ⟨fillBytes p.data 0 MOCK_PAGE_SIZE 0xFF,
   fillBytes p.spare 0 MOCK_SPARE_SIZE 0xFF, true⟩

/-- spi_device_transmit of the static-array simulator.  `tx` is the
transmitted byte sequence (`tx_len = tx.length`), `rx` the caller's
receive buffer with `rxLen` expected bytes.  Always returns ESP_OK like
the source. -/
def sim1_transmit (s : Sim1) (tx : List Nat) (rx : Nat → Nat) (rxLen : Nat) :
    Int × Sim1 × (Nat → Nat) :=
  if s.data_input ∧ 0 < tx.length then
    -- data-input phase: copy into the cache at the column cursor
    let available := MOCK_CACHE_SIZE - s.col
    let copy_len := min tx.length available
    (ESP_OK,
     { s with cache := writeBytes s.cache s.col (tx.take copy_len),
              col := s.col + copy_len,
              data_input := false }, rx)
  else
    match tx with
    | [] => (ESP_OK, s, rx)
    | cmd :: _ =>
      if cmd = CMD_RESET then
        (ESP_OK, { s with cache := fillBytes s.cache 0 MOCK_CACHE_SIZE 0xFF,
                          status_reg := 0, write_enabled := false }, rx)
      else if cmd = CMD_GET_FEATURE then
        if 2 ≤ tx.length ∧ tx.getD 1 0 = 0xC0 ∧ 0 < rxLen then
          (ESP_OK, s, fun i => if i = 0 then s.status_reg else rx i)
        else (ESP_OK, s, rx)
      else if cmd = CMD_READ_ID then
        if 2 ≤ rxLen then
          (ESP_OK, s, fun i => if i = 0 then s.mfr_id
            else if i = 1 then 0xAA else rx i)
        else (ESP_OK, s, rx)
      else if cmd = CMD_WRITE_ENABLE then
        (ESP_OK, { s with write_enabled := true,
                          status_reg := s.status_reg ||| 2 }, rx)
      else if cmd = CMD_PAGE_READ then
        if 4 ≤ tx.length then
          let addr := (tx.getD 1 0 <<< 16) ||| (tx.getD 2 0 <<< 8) ||| tx.getD 3 0
          let block := addr / MOCK_PAGES_PER_BLOCK
          let page := addr % MOCK_PAGES_PER_BLOCK
          if block < MOCK_TOTAL_BLOCKS then
            (ESP_OK, { s with cache := pageToCache (s.flash block page) s.cache },
             rx)
          else
            (ESP_OK, { s with cache := fillBytes s.cache 0 MOCK_CACHE_SIZE 0xFF },
             rx)
        else (ESP_OK, s, rx)
      else if cmd = CMD_READ_CACHE then
        if 4 ≤ tx.length ∧ 0 < rxLen then
          let col := (tx.getD 1 0 <<< 8) ||| tx.getD 2 0
          if col < MOCK_CACHE_SIZE then
            let to_read := min rxLen (MOCK_CACHE_SIZE - col)
            (ESP_OK, s, fun i => if i < to_read then s.cache (col + i) else rx i)
          else (ESP_OK, s, rx)
        else (ESP_OK, s, rx)
      else if cmd = CMD_PROGRAM_LOAD then
        if 3 ≤ tx.length then
          (ESP_OK, { s with col := (tx.getD 1 0 <<< 8) ||| tx.getD 2 0,
                            cache := fillBytes s.cache 0 MOCK_CACHE_SIZE 0xFF,
                            data_input := true }, rx)
        else (ESP_OK, s, rx)
      else if cmd = CMD_RANDOM_DATA_INPUT then
        if 3 ≤ tx.length then
          (ESP_OK, { s with col := (tx.getD 1 0 <<< 8) ||| tx.getD 2 0,
                            data_input := true }, rx)
        else (ESP_OK, s, rx)
      else if cmd = CMD_PROGRAM_EXECUTE then
        if s.write_enabled ∧ 4 ≤ tx.length then
          let addr := (tx.getD 1 0 <<< 16) ||| (tx.getD 2 0 <<< 8) ||| tx.getD 3 0
          let block := addr / MOCK_PAGES_PER_BLOCK
          let page := addr % MOCK_PAGES_PER_BLOCK
          let flash1 :=
            if block < MOCK_TOTAL_BLOCKS then
              fun b p => if b = block ∧ p = page
                then programPage (s.flash block page) s.cache
                else s.flash b p
            else s.flash
          (ESP_OK, { s with flash := flash1, write_enabled := false,
                            status_reg := s.status_reg &&& 0xFD }, rx)
        else (ESP_OK, s, rx)
      else if cmd = CMD_BLOCK_ERASE then
        if s.write_enabled ∧ 4 ≤ tx.length then
          let addr := (tx.getD 1 0 <<< 16) ||| (tx.getD 2 0 <<< 8) ||| tx.getD 3 0
          let block := addr / MOCK_PAGES_PER_BLOCK
          let flash1 :=
            if block < MOCK_TOTAL_BLOCKS then
              fun b p => if b = block ∧ p < MOCK_PAGES_PER_BLOCK
                then erasePage (s.flash b p)
                else s.flash b p
            else s.flash
          (ESP_OK, { s with flash := flash1, write_enabled := false,
                            status_reg := s.status_reg &&& 0xFD }, rx)
        else (ESP_OK, s, rx)
      else (ESP_OK, s, rx)

/-- The static-array simulator as a `Bus` (spi_device_polling_transmit
is an alias of spi_device_transmit in the mock). -/
def sim1Bus : Bus := ⟨Sim1, sim1_transmit⟩

/-- State of the sparse lazily-allocated flash simulator
(src/test_apps/host_test/components/mock_driver/mock_spi_master.c).
`flash b = none` models a missing block table, an entry `none` inside a
table models an unallocated page.  `total_blocks` is 128 or 1024
depending on the PSRAM probe at startup. -/
structure Sim2 where
  total_blocks : Nat
  flash : Nat → Option (Nat → Option MockPage)
  cache : Nat → Nat
  status_reg : Nat
  write_enabled : Bool
  data_input : Bool
  col : Nat
  mfr_id : Nat

/-- mock_nand_reset of the sparse simulator: every lazily allocated
block table is released. -/
def sim2_reset (total_blocks : Nat) : Sim2 :=
  ⟨total_blocks, fun _ => none, fun _ => 0xFF, 0, false, false, 0, 0xEF⟩

/-- get_page_alloc of the sparse simulator.  `bOk` / `pOk` are the
allocation oracles for the block-table calloc and the page malloc.
Returns the page found or freshly allocated (`none` on out-of-bounds or
allocation failure) together with the updated grid (a failed page
malloc can still leave a newly allocated empty block table behind, as
in the source). -/
def get_page_alloc (flash : Nat → Option (Nat → Option MockPage))
    (total_blocks block page : Nat) (bOk pOk : Bool) :
    Option MockPage × (Nat → Option (Nat → Option MockPage)) :=
  if total_blocks ≤ block ∨ MOCK_PAGES_PER_BLOCK ≤ page then (none, flash)
  else
    match flash block with
    | none =>
      if bOk then
        if pOk then
          let table : Nat → Option MockPage :=
            fun p => if p = page then some erasedPage else none
          (some erasedPage, fun b => if b = block then some table else flash b)
        else
          (none, fun b => if b = block then some (fun _ => none) else flash b)
      else (none, flash)
    | some table =>
      match table page with
      | none =>
        if pOk then
          (some erasedPage, fun b => if b = block
            then some (fun p => if p = page then some erasedPage else table p)
            else flash b)
        else (none, flash)
      | some p => (some p, flash)

/-- spi_device_transmit of the sparse simulator.  Identical protocol to
the static one except: CMD_RESET performs a full mock_nand_reset,
CMD_PAGE_READ of an unallocated page loads all-ones, CMD_PROGRAM_EXECUTE
allocates lazily and records a failure by setting status bit 2, and
CMD_BLOCK_ERASE releases the pages of an allocated block table. -/
def sim2_transmit (bOk pOk : Bool) (s : Sim2) (tx : List Nat)
    (rx : Nat → Nat) (rxLen : Nat) : Int × Sim2 × (Nat → Nat) :=
  if s.data_input ∧ 0 < tx.length then
    let available := MOCK_CACHE_SIZE - s.col
    let copy_len := min tx.length available
    (ESP_OK,
     { s with cache := writeBytes s.cache s.col (tx.take copy_len),
              col := s.col + copy_len,
              data_input := false }, rx)
  else
    match tx with
    | [] => (ESP_OK, s, rx)
    | cmd :: _ =>
      if cmd = CMD_RESET then
        (ESP_OK, sim2_reset s.total_blocks, rx)
      else if cmd = CMD_GET_FEATURE then
        if 2 ≤ tx.length ∧ tx.getD 1 0 = 0xC0 ∧ 0 < rxLen then
          (ESP_OK, s, fun i => if i = 0 then s.status_reg else rx i)
        else (ESP_OK, s, rx)
      else if cmd = CMD_READ_ID then
        if 2 ≤ rxLen then
          (ESP_OK, s, fun i => if i = 0 then s.mfr_id
            else if i = 1 then 0xAA else rx i)
        else (ESP_OK, s, rx)
      else if cmd = CMD_WRITE_ENABLE then
        (ESP_OK, { s with write_enabled := true,
                          status_reg := s.status_reg ||| 2 }, rx)
      else if cmd = CMD_PAGE_READ then
        if 4 ≤ tx.length then
          let addr := (tx.getD 1 0 <<< 16) ||| (tx.getD 2 0 <<< 8) ||| tx.getD 3 0
          let block := addr / MOCK_PAGES_PER_BLOCK
          let page := addr % MOCK_PAGES_PER_BLOCK
          let cache1 :=
            if block < s.total_blocks then
              match s.flash block with
              | some table =>
                match table page with
                | some p => pageToCache p s.cache
                | none => fillBytes s.cache 0 MOCK_CACHE_SIZE 0xFF
              | none => fillBytes s.cache 0 MOCK_CACHE_SIZE 0xFF
            else fillBytes s.cache 0 MOCK_CACHE_SIZE 0xFF
          (ESP_OK, { s with cache := cache1 }, rx)
        else (ESP_OK, s, rx)
      else if cmd = CMD_READ_CACHE then
        if 4 ≤ tx.length ∧ 0 < rxLen then
          let col := (tx.getD 1 0 <<< 8) ||| tx.getD 2 0
          if col < MOCK_CACHE_SIZE then
            let to_read := min rxLen (MOCK_CACHE_SIZE - col)
            (ESP_OK, s, fun i => if i < to_read then s.cache (col + i) else rx i)
          else (ESP_OK, s, rx)
        else (ESP_OK, s, rx)
      else if cmd = CMD_PROGRAM_LOAD then
        if 3 ≤ tx.length then
          (ESP_OK, { s with col := (tx.getD 1 0 <<< 8) ||| tx.getD 2 0,
                            cache := fillBytes s.cache 0 MOCK_CACHE_SIZE 0xFF,
                            data_input := true }, rx)
        else (ESP_OK, s, rx)
      else if cmd = CMD_RANDOM_DATA_INPUT then
        if 3 ≤ tx.length then
          (ESP_OK, { s with col := (tx.getD 1 0 <<< 8) ||| tx.getD 2 0,
                            data_input := true }, rx)
        else (ESP_OK, s, rx)
      else if cmd = CMD_PROGRAM_EXECUTE then
        if s.write_enabled ∧ 4 ≤ tx.length then
          let addr := (tx.getD 1 0 <<< 16) ||| (tx.getD 2 0 <<< 8) ||| tx.getD 3 0
          let block := addr / MOCK_PAGES_PER_BLOCK
          let page := addr % MOCK_PAGES_PER_BLOCK
          if block < s.total_blocks then
            let a := get_page_alloc s.flash s.total_blocks block page bOk pOk
            match a.1 with
            | some p =>
              let flash1 := fun b =>
                if b = block then
                  match a.2 block with
                  | some table => some (fun q => if q = page
                      then some (programPage p s.cache) else table q)
                  | none => none
                else a.2 b
              (ESP_OK, { s with flash := flash1, write_enabled := false,
                                status_reg := s.status_reg &&& 0xFD }, rx)
            | none =>
              (ESP_OK, { s with flash := a.2, write_enabled := false,
                                status_reg := (s.status_reg ||| 4) &&& 0xFD }, rx)
          else
            (ESP_OK, { s with write_enabled := false,
                              status_reg := (s.status_reg ||| 4) &&& 0xFD }, rx)
        else (ESP_OK, s, rx)
      else if cmd = CMD_BLOCK_ERASE then
        if s.write_enabled ∧ 4 ≤ tx.length then
          let addr := (tx.getD 1 0 <<< 16) ||| (tx.getD 2 0 <<< 8) ||| tx.getD 3 0
          let block := addr / MOCK_PAGES_PER_BLOCK
          let flash1 :=
            if block < s.total_blocks then
              match s.flash block with
              | some _ => fun b => if b = block
                  then some (fun _ => (none : Option MockPage)) else s.flash b
              | none => s.flash
            else s.flash
          (ESP_OK, { s with flash := flash1, write_enabled := false,
                            status_reg := s.status_reg &&& 0xFD }, rx)
        else (ESP_OK, s, rx)
      else (ESP_OK, s, rx)

/-- The sparse simulator as a `Bus`, for a fixed pair of allocation
oracles. -/
def sim2Bus (bOk pOk : Bool) : Bus := ⟨Sim2, sim2_transmit bOk pOk⟩

/-- An adversarial bus whose exchanges always succeed, whose status
reads all answer `st`, and whose other reads answer `d tx i`; the state
logs the transmitted byte sequences in order, so a theorem about the
final state pins down exactly which commands were issued. -/
def statusBus (st : Nat) (d : List Nat → Nat → Nat) : Bus :=
  ⟨List (List Nat), fun log tx rx rxLen =>
    (ESP_OK, log ++ [tx],
     fun i => if i < rxLen then
       (if tx.getD 0 0 = CMD_GET_FEATURE then st else d tx i) else rx i)⟩

/-- A bus on which every exchange fails with ESP_FAIL and the receive
buffer is untouched. -/
def failBus : Bus := ⟨Unit, fun _ _ rx _ => (ESP_FAIL, (), rx)⟩

/-- A bus on which every exchange succeeds and every received byte is 1,
so the busy bit never clears. -/
def busyBus : Bus :=
  ⟨Unit, fun _ _ rx rxLen => (ESP_OK, (), fun i => if i < rxLen then 1 else rx i)⟩

/-- Masking with a submask of a zero mask is zero. -/
theorem and_submask_zero {x M : Nat} (m : Nat) (h : x &&& M = 0)
    (hm : M &&& m = m) : x &&& m = 0 := by
  have h1 : (x &&& M) &&& m = 0 &&& m := by rw [h]
  rwa [Nat.and_assoc, hm, Nat.zero_and] at h1

/-- Setting the write-enable-latch bit does not change bits outside of
bit 1. -/
theorem lor_two_and {x m : Nat} (h : 2 &&& m = 0) :
    (x ||| 2) &&& m = x &&& m := by
  rw [Nat.and_distrib_right, h, Nat.or_zero]

/-- Clearing the write-enable-latch bit does not change bits outside of
bit 1. -/
theorem and_fd_and {x m : Nat} (h : 0xFD &&& m = m) :
    (x &&& 0xFD) &&& m = x &&& m := by
  rw [Nat.and_assoc, h]

/-- Recomposition of a split 16-bit address: the big-endian byte pair
produced by the driver decodes to the original value in the
simulator. -/
theorem lor_shift_add {k m n : Nat} (h : m < 2 ^ n) :
    (k <<< n) ||| m = k * 2 ^ n + m := by
  apply Nat.eq_of_testBit_eq
  intro j
  rw [Nat.mul_comm]
  rw [Nat.testBit_mul_pow_two_add k h j]
  rcases Nat.lt_or_ge j n with hj | hj
  · simp [Nat.testBit_shiftLeft, hj, Nat.not_le_of_lt hj]
  · simp [Nat.testBit_shiftLeft, hj, Nat.testBit_lt_two_pow (Nat.lt_of_lt_of_le h (Nat.pow_le_pow_right (by omega) hj))]

/-- Byte masking is mod 256. -/
theorem and_255 (x : Nat) : x &&& 0xFF = x % 256 :=
  Nat.and_pow_two_sub_one_eq_mod x 8

/-- The three big-endian address bytes the driver sends reassemble to
the page address inside the simulator, for addresses below 2^16 (the
largest page address of the simulated geometry is 1024*64-1 = 65535). -/
theorem addr_roundtrip {addr : Nat} (h : addr < 65536) :
    ((((addr >>> 16) &&& 0xFF) <<< 16) ||| (((addr >>> 8) &&& 0xFF) <<< 8)) |||
      (addr &&& 0xFF) = addr := by
  have h16 : addr >>> 16 = 0 := by
    rw [Nat.shiftRight_eq_div_pow]
    omega
  have h8 : (addr >>> 8) &&& 0xFF = addr / 256 := by
    rw [Nat.shiftRight_eq_div_pow, and_255]
    have : addr / 2 ^ 8 < 256 := by omega
    simpa using Nat.mod_eq_of_lt this
  have h16' : (addr >>> 16) &&& 0xFF = 0 := by rw [h16]; rfl
  rw [h16', h8, and_255]
  have hm : addr % 256 < 2 ^ 8 := by
    have : addr % 256 < 256 := Nat.mod_lt addr (by omega)
    simpa using this
  rw [show (0 : Nat) <<< 16 = 0 from rfl, Nat.zero_or, lor_shift_add hm]
  have := Nat.div_add_mod addr 256
  omega

/-- With at least one millisecond per tick, `timeout / tick + 2` polls
always decide the busy-wait loop. -/
theorem waitBusyLoop_isSome (B : Bus) (timeout tick : Nat) (outp : Bool)
    (htick : 1 ≤ tick) :
    ∀ fuel n status loc s, timeout / tick + 1 - n < fuel →
      (waitBusyLoop B timeout tick outp fuel n status loc s).isSome = true := by
  intro fuel
  induction fuel with
  | zero => intro n status loc s h; omega
  | succ fuel ih =>
    intro n status loc s h
    simp only [waitBusyLoop]
    split
    · rfl
    · split
      · rfl
      · split
        · rfl
        · rename_i h3
          apply ih
          have hn : n ≤ timeout / tick := by
            rw [Nat.le_div_iff_mul_le htick]
            omega
          omega

/-- Against a device that never clears the busy bit (and whose
exchanges succeed), the loop returns the timeout error and leaves the
`status_out` location untouched. -/
theorem waitBusyLoop_busy_timeout (B : Bus) (timeout tick : Nat) (outp : Bool)
    (htick : 1 ≤ tick)
    (hbusy : ∀ s status,
      (B.transmit s [CMD_GET_FEATURE, REG_STATUS]
        (fun i => if i = 0 then status else 0) 1).1 = ESP_OK ∧
      ((B.transmit s [CMD_GET_FEATURE, REG_STATUS]
        (fun i => if i = 0 then status else 0) 1).2.2 0) &&& SR_BUSY ≠ 0) :
    ∀ fuel n status loc s, timeout / tick + 1 - n < fuel →
      ∃ st2 bus2, waitBusyLoop B timeout tick outp fuel n status loc s =
        some ⟨ESP_ERR_TIMEOUT, st2, loc, bus2⟩ := by
  intro fuel
  induction fuel with
  | zero => intro n status loc s h; omega
  | succ fuel ih =>
    intro n status loc s h
    simp only [waitBusyLoop]
    rcases hbusy s status with ⟨hok, hbit⟩
    rw [if_neg (by simp [hok]), if_neg hbit]
    split
    · exact ⟨_, _, rfl⟩
    · rename_i h3
      apply ih
      have hn : n ≤ timeout / tick := by
        rw [Nat.le_div_iff_mul_le htick]
        omega
      omega

/-- The `status_out` frame property of the polling loop: the location is
written only on the success exit and only when the pointer is
non-null. -/
theorem waitBusyLoop_loc (B : Bus) (timeout tick : Nat) (outp : Bool) :
    ∀ fuel n status loc s r,
      waitBusyLoop B timeout tick outp fuel n status loc s = some r →
      (r.err ≠ ESP_OK → r.loc = loc) ∧ (outp = false → r.loc = loc) ∧
      (r.err = ESP_OK → outp = true → r.loc = r.status) := by
  intro fuel
  induction fuel with
  | zero => intro n status loc s r h; simp [waitBusyLoop] at h
  | succ fuel ih =>
    intro n status loc s r h
    simp only [waitBusyLoop] at h
    split at h
    · rename_i h1
      rcases Option.some.inj h with rfl
      refine ⟨fun _ => rfl, fun _ => rfl, fun he _ => absurd he h1⟩
    · split at h
      · rcases Option.some.inj h with rfl
        refine ⟨fun he => absurd rfl he, fun ho => by simp [ho], fun _ ho => by simp [ho]⟩
      · split at h
        · rcases Option.some.inj h with rfl
          refine ⟨fun _ => rfl, fun _ => rfl, fun he _ => ?_⟩
          exact absurd he (by simp [ESP_ERR_TIMEOUT, ESP_OK])
        · exact ih _ _ _ _ _ h

/-- Claim C8: the busy-wait helper terminates on every bus behaviour
(with the positive tick period of the RTOS port): within a fuel of
`timeout / tick + 2` polls it always decides; if the busy bit never
clears it returns the ESP_ERR_TIMEOUT error with `status_out`
untouched; an exchange failure on a poll is returned immediately; and
when a poll succeeds with the busy bit clear, it returns ESP_OK with
that final status byte. -/
theorem claim_C8_wait_busy_terminates (B : Bus) (timeout tick : Nat)
    (outp : Bool) (status0 loc : Nat) (s : B.S) (htick : 1 ≤ tick) :
    ((spi_nand_wait_busy B timeout tick outp status0 loc s).isSome = true)
    ∧ ((∀ (s' : B.S) (st' : Nat),
          (B.transmit s' [CMD_GET_FEATURE, REG_STATUS]
            (fun i => if i = 0 then st' else 0) 1).1 = ESP_OK ∧
          ((B.transmit s' [CMD_GET_FEATURE, REG_STATUS]
            (fun i => if i = 0 then st' else 0) 1).2.2 0) &&& SR_BUSY ≠ 0) →
        ∃ st2 bus2, spi_nand_wait_busy B timeout tick outp status0 loc s =
          some ⟨ESP_ERR_TIMEOUT, st2, loc, bus2⟩)
    ∧ (∀ t, t = B.transmit s [CMD_GET_FEATURE, REG_STATUS]
          (fun i => if i = 0 then status0 else 0) 1 →
        (t.1 ≠ ESP_OK → spi_nand_wait_busy B timeout tick outp status0 loc s =
          some ⟨t.1, t.2.2 0, loc, t.2.1⟩)
        ∧ (t.1 = ESP_OK → t.2.2 0 &&& SR_BUSY = 0 →
          spi_nand_wait_busy B timeout tick outp status0 loc s =
            some ⟨ESP_OK, t.2.2 0, if outp then t.2.2 0 else loc, t.2.1⟩)) := by
  refine ⟨?_, ?_, ?_⟩
  · exact waitBusyLoop_isSome B timeout tick outp htick
      (waitFuel timeout tick) 0 status0 loc s (by rw [Nat.sub_zero]; unfold waitFuel; omega)
  · intro hbusy
    exact waitBusyLoop_busy_timeout B timeout tick outp htick hbusy
      (waitFuel timeout tick) 0 status0 loc s (by rw [Nat.sub_zero]; unfold waitFuel; omega)
  · intro t ht
    constructor
    · intro h1
      simp only [spi_nand_wait_busy, waitFuel]
      rw [show timeout / tick + 2 = (timeout / tick + 1) + 1 from rfl]
      simp only [waitBusyLoop, ← ht]
      rw [if_pos h1]
    · intro h1 h2
      simp only [spi_nand_wait_busy, waitFuel]
      rw [show timeout / tick + 2 = (timeout / tick + 1) + 1 from rfl]
      simp only [waitBusyLoop, ← ht]
      rw [if_neg (by simp [h1]), if_pos h2]

/-- Witness for C8: against a bus that always answers with the busy
bit set, the default 500 ms wait with a 1 ms tick returns the timeout
error. -/
theorem claim_C8_witness :
    (spi_nand_wait_busy busyBus 500 1 true 0 7 ()).map WaitRes.err =
      some ESP_ERR_TIMEOUT := by
  obtain ⟨st2, bus2, heq⟩ :=
    (claim_C8_wait_busy_terminates busyBus 500 1 true 0 7 () (by decide)).2.1
      (fun s' st' => ⟨rfl, (by decide : (1 : Nat) &&& SR_BUSY ≠ 0)⟩)
  rw [heq]
  rfl

/-- Claim C10: for every busy-wait call that fails (bus error or
timeout) the caller's `status_out` location is unchanged, and the final
status byte is stored through it only on the success path and only when
the pointer is non-null. -/
theorem claim_C10_status_out_frame (B : Bus) (timeout tick : Nat)
    (outp : Bool) (status0 loc : Nat) (s : B.S) (r : WaitRes B.S)
    (h : spi_nand_wait_busy B timeout tick outp status0 loc s = some r) :
    (r.err ≠ ESP_OK → r.loc = loc) ∧ (outp = false → r.loc = loc) ∧
    (r.err = ESP_OK → outp = true → r.loc = r.status) :=
  waitBusyLoop_loc B timeout tick outp _ 0 status0 loc s r h

/-- Witness for C10: the timed-out wait on the always-busy bus left the
location at its initial value 7. -/
theorem claim_C10_witness :
    (spi_nand_wait_busy busyBus 5 1 true 0 7 ()).map WaitRes.loc =
      some 7 := by
  have h : spi_nand_wait_busy busyBus 5 1 true 0 7 () =
      some ⟨ESP_ERR_TIMEOUT, 1, 7, ()⟩ := rfl
  have h2 := (claim_C10_status_out_frame busyBus 5 1 true 0 7 () _ h).1
    (by decide)
  rw [h]
  simp [h2]

/-- On the adversarial status bus the first poll already returns the
chosen status byte, so the busy-wait succeeds at once when its busy bit
is clear. -/
theorem statusBus_wait (st : Nat) (d : List Nat → Nat → Nat)
    (timeout tick : Nat) (outp : Bool) (status0 loc : Nat)
    (log : List (List Nat)) (h : st &&& SR_BUSY = 0) :
    spi_nand_wait_busy (statusBus st d) timeout tick outp status0 loc log =
      some ⟨ESP_OK, st, if outp then st else loc,
        log ++ [[CMD_GET_FEATURE, REG_STATUS]]⟩ := by
  simp only [spi_nand_wait_busy, waitFuel]
  rw [show timeout / tick + 2 = (timeout / tick + 1) + 1 from rfl]
  simp only [waitBusyLoop, statusBus]
  norm_num [CMD_GET_FEATURE, h, ESP_OK]

/-- Claim C1: for every status byte delivered by the busy-wait after
page-read-to-cache, the generic read-page decode of the 2-bit ECC field
(bits 5:4) behaves as specified: value 2 returns the ecc-uncorrectable
result and issues no read-from-cache transfer (the caller's buffers are
untouched and the transaction log stops after the status poll); values
1 and 3 return the corrected result and transfer the requested data and
spare; value 0 returns clean and also transfers. -/
theorem claim_C1_ecc_decode (st tick : Nat) (d : List Nat → Nat → Nat)
    (priv : SpiNandPriv) (block page data_len spare_len : Nat)
    (dataBuf spareBuf : Nat → Nat)
    (hbusy : st &&& SR_BUSY = 0) (hd : 0 < data_len) (hs : 0 < spare_len) :
    let pa := (block * priv.block_size + page) % 2 ^ 32
    let cmdRead := [CMD_PAGE_READ, (pa >>> 16) &&& 0xFF,
      (pa >>> 8) &&& 0xFF, pa &&& 0xFF]
    let pollTx := [CMD_GET_FEATURE, REG_STATUS]
    let col := priv.page_size % 2 ^ 16
    let cmdCacheD := [CMD_READ_CACHE, 0, 0, 0]
    let cmdCacheS := [CMD_READ_CACHE, (col >>> 8) &&& 0xFF, col &&& 0xFF, 0]
    let run := uffs_spi_nand_read_page_generic (statusBus st d) tick priv
      block page true dataBuf data_len true spareBuf spare_len []
    ((st &&& SR_ECC_MASK) >>> 4 = 2 →
      run = some (.ECC_FAIL, dataBuf, spareBuf, [cmdRead, pollTx]))
    ∧ (((st &&& SR_ECC_MASK) >>> 4 = 1 ∨ (st &&& SR_ECC_MASK) >>> 4 = 3) →
      ∃ q, run = some q ∧ q.1 = .ECC_OK ∧
        q.2.2.2 = [cmdRead, pollTx, cmdCacheD, cmdCacheS] ∧
        (∀ i, i < data_len → q.2.1 i = d cmdCacheD i) ∧
        (∀ i, data_len ≤ i → q.2.1 i = dataBuf i) ∧
        (∀ i, i < spare_len → q.2.2.1 i = d cmdCacheS i) ∧
        (∀ i, spare_len ≤ i → q.2.2.1 i = spareBuf i))
    ∧ ((st &&& SR_ECC_MASK) >>> 4 = 0 →
      ∃ q, run = some q ∧ q.1 = .NO_ERR ∧
        q.2.2.2 = [cmdRead, pollTx, cmdCacheD, cmdCacheS] ∧
        (∀ i, i < data_len → q.2.1 i = d cmdCacheD i) ∧
        (∀ i, data_len ≤ i → q.2.1 i = dataBuf i) ∧
        (∀ i, i < spare_len → q.2.2.1 i = d cmdCacheS i) ∧
        (∀ i, spare_len ≤ i → q.2.2.1 i = spareBuf i)) := by
  intro pa cmdRead pollTx col cmdCacheD cmdCacheS run
  have hrun : run = uffs_spi_nand_read_page_generic (statusBus st d) tick priv
      block page true dataBuf data_len true spareBuf spare_len [] := rfl
  have hstep : run =
      let w := (⟨ESP_OK, st, st, [cmdRead, pollTx]⟩ : WaitRes (List (List Nat)))
      if (st &&& SR_ECC_MASK) >>> 4 = 2 then
        some (.ECC_FAIL, dataBuf, spareBuf, w.bus)
      else
        some (if (st &&& SR_ECC_MASK) >>> 4 = 1 ∨ (st &&& SR_ECC_MASK) >>> 4 = 3
            then FlashResult.ECC_OK else .NO_ERR,
          fun i => if i < data_len then d cmdCacheD i else dataBuf i,
          fun i => if i < spare_len then d cmdCacheS i else spareBuf i,
          [cmdRead, pollTx, cmdCacheD, cmdCacheS]) := by
    rw [hrun]
    simp only [uffs_spi_nand_read_page_generic, spi_nand_op]
    rw [statusBus_wait st d NAND_TIMEOUT_MS tick true 0 0 _ hbusy]
    simp only [statusBus, CMD_READ_CACHE, CMD_GET_FEATURE, ESP_OK]
    norm_num [hd, hs, List.nil_append]
    rfl
  refine ⟨?_, ?_, ?_⟩
  · intro h2
    rw [hstep]
    simp [h2]
  · intro h13
    have hne : ¬ (st &&& SR_ECC_MASK) >>> 4 = 2 := by omega
    refine ⟨(.ECC_OK,
        fun i => if i < data_len then d cmdCacheD i else dataBuf i,
        fun i => if i < spare_len then d cmdCacheS i else spareBuf i,
        [cmdRead, pollTx, cmdCacheD, cmdCacheS]), ?_, rfl, rfl, ?_, ?_, ?_, ?_⟩
    · rw [hstep]
      simp [hne, h13]
    · intro i hi; simp [hi]
    · intro i hi; simp [Nat.not_lt.mpr hi]
    · intro i hi; simp [hi]
    · intro i hi; simp [Nat.not_lt.mpr hi]
  · intro h0
    have hne : ¬ (st &&& SR_ECC_MASK) >>> 4 = 2 := by omega
    have hne13 : ¬ ((st &&& SR_ECC_MASK) >>> 4 = 1 ∨
        (st &&& SR_ECC_MASK) >>> 4 = 3) := by omega
    refine ⟨(.NO_ERR,
        fun i => if i < data_len then d cmdCacheD i else dataBuf i,
        fun i => if i < spare_len then d cmdCacheS i else spareBuf i,
        [cmdRead, pollTx, cmdCacheD, cmdCacheS]), ?_, rfl, rfl, ?_, ?_, ?_, ?_⟩
    · rw [hstep]
      simp [hne, hne13]
    · intro i hi; simp [hi]
    · intro i hi; simp [Nat.not_lt.mpr hi]
    · intro i hi; simp [hi]
    · intro i hi; simp [Nat.not_lt.mpr hi]

/-- Witness for C1: a status byte 0x20 (ECC field = 2, busy clear) makes
the generic read return the uncorrectable result with untouched buffers
after only the page-read command and the status poll. -/
theorem claim_C1_witness :
    uffs_spi_nand_read_page_generic (statusBus 0x20 (fun _ _ => 0)) 1
      ⟨2048, 64, 64, 1024⟩ 0 0 true (fun _ => 0) 1 true (fun _ => 0) 1 [] =
    some (.ECC_FAIL, fun _ => 0, fun _ => 0,
      [[0x13, 0, 0, 0], [0x0F, 0xC0]]) := by
  have h := (claim_C1_ecc_decode 0x20 1 (fun _ _ => 0) ⟨2048, 64, 64, 1024⟩
    0 0 1 1 (fun _ => 0) (fun _ => 0) (by decide) (by decide) (by decide)).1
    (by decide)
  exact h

/-- Claim C2: in both flash simulators, program-execute on an in-bounds
page AND-merges the cache register into the page's stored data and
spare — after programming, every stored byte equals its previous value
bitwise-AND the corresponding cache byte, whatever the previous
contents were — and the page is marked not erased.  (In the sparse
simulator the property is stated for an allocated page; an unallocated
page is all-ones, so its fresh allocation merges the same way.) -/
theorem claim_C2_program_and_merges :
    (∀ (s : Sim1) (t1 t2 t3 : Nat) (rx : Nat → Nat) (rxLen : Nat),
      s.data_input = false → s.write_enabled = true →
      (((t1 <<< 16) ||| (t2 <<< 8) ||| t3) / MOCK_PAGES_PER_BLOCK <
          MOCK_TOTAL_BLOCKS →
        ∀ block page, block = ((t1 <<< 16) ||| (t2 <<< 8) ||| t3) /
            MOCK_PAGES_PER_BLOCK →
          page = ((t1 <<< 16) ||| (t2 <<< 8) ||| t3) % MOCK_PAGES_PER_BLOCK →
          ((((sim1_transmit s [CMD_PROGRAM_EXECUTE, t1, t2, t3] rx
              rxLen).2.1.flash block page).is_erased = false)
          ∧ (∀ i, i < MOCK_PAGE_SIZE →
            ((sim1_transmit s [CMD_PROGRAM_EXECUTE, t1, t2, t3] rx
              rxLen).2.1.flash block page).data i =
              (s.flash block page).data i &&& s.cache i)
          ∧ (∀ i, i < MOCK_SPARE_SIZE →
            ((sim1_transmit s [CMD_PROGRAM_EXECUTE, t1, t2, t3] rx
              rxLen).2.1.flash block page).spare i =
              (s.flash block page).spare i &&&
                s.cache (MOCK_PAGE_SIZE + i)))))
    ∧ (∀ (bOk pOk : Bool) (s : Sim2) (t1 t2 t3 : Nat) (rx : Nat → Nat)
        (rxLen : Nat) (table : Nat → Option MockPage) (pg : MockPage),
      s.data_input = false → s.write_enabled = true →
      (((t1 <<< 16) ||| (t2 <<< 8) ||| t3) / MOCK_PAGES_PER_BLOCK <
          s.total_blocks →
        ∀ block page, block = ((t1 <<< 16) ||| (t2 <<< 8) ||| t3) /
            MOCK_PAGES_PER_BLOCK →
          page = ((t1 <<< 16) ||| (t2 <<< 8) ||| t3) % MOCK_PAGES_PER_BLOCK →
          s.flash block = some table → table page = some pg →
          ((sim2_transmit bOk pOk s [CMD_PROGRAM_EXECUTE, t1, t2, t3] rx
              rxLen).2.1.flash block =
            some (fun q => if q = page then some (programPage pg s.cache)
              else table q)
          ∧ (programPage pg s.cache).is_erased = false
          ∧ (∀ i, i < MOCK_PAGE_SIZE →
            (programPage pg s.cache).data i = pg.data i &&& s.cache i)
          ∧ (∀ i, i < MOCK_SPARE_SIZE →
            (programPage pg s.cache).spare i =
              pg.spare i &&& s.cache (MOCK_PAGE_SIZE + i))))) := by
  constructor
  · intro s t1 t2 t3 rx rxLen hdi hwe hb block page hbk hpg
    subst hbk
    subst hpg
    simp only [sim1_transmit, hdi, hwe, CMD_RESET, CMD_GET_FEATURE,
      CMD_READ_ID, CMD_WRITE_ENABLE, CMD_PAGE_READ, CMD_READ_CACHE,
      CMD_PROGRAM_LOAD, CMD_RANDOM_DATA_INPUT, CMD_PROGRAM_EXECUTE,
      CMD_BLOCK_ERASE]
    norm_num [List.getD, hb, programPage]
    constructor <;> intro i h1 h2 <;> omega
  · intro bOk pOk s t1 t2 t3 rx rxLen table pg hdi hwe hb block page hbk hpg
      htab hpage
    subst hbk
    subst hpg
    simp only [sim2_transmit, hdi, hwe, CMD_RESET, CMD_GET_FEATURE,
      CMD_READ_ID, CMD_WRITE_ENABLE, CMD_PAGE_READ, CMD_READ_CACHE,
      CMD_PROGRAM_LOAD, CMD_RANDOM_DATA_INPUT, CMD_PROGRAM_EXECUTE,
      CMD_BLOCK_ERASE]
    norm_num [List.getD, hb, get_page_alloc, htab, hpage, programPage,
      Nat.not_le.mpr hb, Nat.mod_lt]
    refine ⟨?_, ?_, ?_⟩
    · have hplt : ((t1 <<< 16) ||| (t2 <<< 8) ||| t3) % MOCK_PAGES_PER_BLOCK <
          MOCK_PAGES_PER_BLOCK := Nat.mod_lt _ (by decide)
      simp [get_page_alloc, Nat.not_le.mpr hb, Nat.not_le.mpr hplt, htab, hpage]
    · intro i hi
      simp [programPage, hi]
    · intro i hi
      simp [programPage, hi]

/-- Witness for C2: programming page 0 of block 0 from the reset state
with the write-enable latch set leaves byte 0 at 0xFF AND 0xFF = 0xFF
and marks the page not erased. -/
theorem claim_C2_witness :
    (((sim1_transmit { sim1_reset with write_enabled := true }
        [CMD_PROGRAM_EXECUTE, 0, 0, 0] (fun _ => 0) 0).2.1.flash 0 0).data 0
      = 0xFF)
    ∧ (((sim1_transmit { sim1_reset with write_enabled := true }
        [CMD_PROGRAM_EXECUTE, 0, 0, 0] (fun _ => 0) 0).2.1.flash 0 0).is_erased
      = false) := by
  have h := (claim_C2_program_and_merges).1
    { sim1_reset with write_enabled := true } 0 0 0 (fun _ => 0) 0 rfl rfl
    (by decide) 0 0 (by decide) (by decide)
  refine ⟨?_, h.1⟩
  rw [h.2.1 0 (by decide)]
  rfl

/-- Claim C6: in both simulators, a transmission starting with the
program-execute or block-erase opcode received while the write-enable
latch is clear never mutates the block/page storage, in any state (so
in particular in every reachable one). -/
theorem claim_C6_no_mutation_without_wel :
    (∀ (s : Sim1) (cmd : Nat) (rest : List Nat) (rx : Nat → Nat)
        (rxLen : Nat),
      s.write_enabled = false →
      (cmd = CMD_PROGRAM_EXECUTE ∨ cmd = CMD_BLOCK_ERASE) →
      (sim1_transmit s (cmd :: rest) rx rxLen).2.1.flash = s.flash)
    ∧ (∀ (bOk pOk : Bool) (s : Sim2) (cmd : Nat) (rest : List Nat)
        (rx : Nat → Nat) (rxLen : Nat),
      s.write_enabled = false →
      (cmd = CMD_PROGRAM_EXECUTE ∨ cmd = CMD_BLOCK_ERASE) →
      (sim2_transmit bOk pOk s (cmd :: rest) rx rxLen).2.1.flash =
        s.flash) := by
  constructor
  · intro s cmd rest rx rxLen hwe hcmd
    by_cases hdi : s.data_input = true
    · simp [sim1_transmit, hdi]
    · rcases hcmd with rfl | rfl <;>
        simp [sim1_transmit, eq_false_of_ne_true hdi, hwe, CMD_RESET,
          CMD_GET_FEATURE, CMD_READ_ID, CMD_WRITE_ENABLE, CMD_PAGE_READ,
          CMD_READ_CACHE, CMD_PROGRAM_LOAD, CMD_RANDOM_DATA_INPUT,
          CMD_PROGRAM_EXECUTE, CMD_BLOCK_ERASE]
  · intro bOk pOk s cmd rest rx rxLen hwe hcmd
    by_cases hdi : s.data_input = true
    · simp [sim2_transmit, hdi]
    · rcases hcmd with rfl | rfl <;>
        simp [sim2_transmit, eq_false_of_ne_true hdi, hwe, CMD_RESET,
          CMD_GET_FEATURE, CMD_READ_ID, CMD_WRITE_ENABLE, CMD_PAGE_READ,
          CMD_READ_CACHE, CMD_PROGRAM_LOAD, CMD_RANDOM_DATA_INPUT,
          CMD_PROGRAM_EXECUTE, CMD_BLOCK_ERASE]

/-- Witness for C6: from the reset state (latch clear), a program
execute at page 0 leaves the whole grid untouched. -/
theorem claim_C6_witness :
    (sim1_transmit sim1_reset [CMD_PROGRAM_EXECUTE, 0, 0, 0]
      (fun _ => 0) 0).2.1.flash = sim1_reset.flash :=
  (claim_C6_no_mutation_without_wel).1 sim1_reset CMD_PROGRAM_EXECUTE
    [0, 0, 0] (fun _ => 0) 0 rfl (Or.inl rfl)

/-- Claim C5 (code bug evidence): in the sparse simulator, a
program-execute whose target block is out of bounds, and one whose
storage allocation fails, record the failure by setting status bit 2 —
the erase-fail position of the status-register layout — while bit 3,
the program-fail bit that the claim (and the driver's own SR_P_FAIL
mask and the source comment "Set P_FAIL") designates, stays clear. -/
theorem claim_C5_program_fail_sets_bit2_not_bit3 :
    ((sim2_transmit false false
        ((sim2_transmit false false (sim2_reset 128) [CMD_WRITE_ENABLE]
          (fun _ => 0) 0).2.1)
        [CMD_PROGRAM_EXECUTE, 0x00, 0x20, 0x00] (fun _ => 0) 0).2.1.status_reg
      = 4)
    ∧ ((sim2_transmit false false
        ((sim2_transmit false false (sim2_reset 128) [CMD_WRITE_ENABLE]
          (fun _ => 0) 0).2.1)
        [CMD_PROGRAM_EXECUTE, 0x00, 0x20, 0x00] (fun _ => 0) 0).2.1.status_reg
        &&& SR_P_FAIL = 0)
    ∧ ((sim2_transmit false false
        ((sim2_transmit false false (sim2_reset 128) [CMD_WRITE_ENABLE]
          (fun _ => 0) 0).2.1)
        [CMD_PROGRAM_EXECUTE, 0x00, 0x20, 0x00] (fun _ => 0) 0).2.1.status_reg
        &&& SR_E_FAIL = SR_E_FAIL)
    ∧ ((sim2_transmit false false
        ((sim2_transmit false false (sim2_reset 128) [CMD_WRITE_ENABLE]
          (fun _ => 0) 0).2.1)
        [CMD_PROGRAM_EXECUTE, 0, 0, 0] (fun _ => 0) 0).2.1.status_reg
      = 4) := by
  refine ⟨rfl, rfl, rfl, rfl⟩

/-- Counterexample to C4 as stated: in the sparse simulator, record a
fail bit (out-of-bounds program sets bit 2), write-enable again and
erase the in-bounds block 0 — the fail bit is still set afterwards, so
block-erase does not clear previously recorded fail bits. -/
theorem claim_C4_counterexample :
    (sim2_transmit false false
      ((sim2_transmit false false
        ((sim2_transmit false false
          ((sim2_transmit false false (sim2_reset 128) [CMD_WRITE_ENABLE]
            (fun _ => 0) 0).2.1)
          [CMD_PROGRAM_EXECUTE, 0x00, 0x20, 0x00] (fun _ => 0) 0).2.1)
        [CMD_WRITE_ENABLE] (fun _ => 0) 0).2.1)
      [CMD_BLOCK_ERASE, 0, 0, 0] (fun _ => 0) 0).2.1.status_reg &&& SR_E_FAIL
    = SR_E_FAIL := rfl

/-- Claim C4 as amended: in both simulators a block-erase with the
write-enable latch set resets every page of the addressed in-bounds
block to all-ones (static simulator) resp. releases them back to the
unallocated all-ones state (sparse simulator), marks them erased,
leaves other blocks alone and clears the write-enable latch — but the
status register is only masked with ~WEL, so previously recorded fail
bits (bits 2 and 3) survive unchanged. -/
theorem claim_C4_erase_resets_pages :
    (∀ (q : MockPage), (erasePage q).is_erased = true
      ∧ (∀ i, i < MOCK_PAGE_SIZE → (erasePage q).data i = 0xFF)
      ∧ (∀ i, i < MOCK_SPARE_SIZE → (erasePage q).spare i = 0xFF))
    ∧ (∀ (s : Sim1) (t1 t2 t3 : Nat) (rx : Nat → Nat) (rxLen : Nat),
      s.data_input = false → s.write_enabled = true →
      (((t1 <<< 16) ||| (t2 <<< 8) ||| t3) / MOCK_PAGES_PER_BLOCK <
          MOCK_TOTAL_BLOCKS →
        ∀ block, block = ((t1 <<< 16) ||| (t2 <<< 8) ||| t3) /
            MOCK_PAGES_PER_BLOCK →
        ((∀ p, p < MOCK_PAGES_PER_BLOCK →
            (sim1_transmit s [CMD_BLOCK_ERASE, t1, t2, t3] rx
              rxLen).2.1.flash block p = erasePage (s.flash block p))
        ∧ (∀ b p, b ≠ block →
            (sim1_transmit s [CMD_BLOCK_ERASE, t1, t2, t3] rx
              rxLen).2.1.flash b p = s.flash b p)
        ∧ (sim1_transmit s [CMD_BLOCK_ERASE, t1, t2, t3] rx
            rxLen).2.1.write_enabled = false
        ∧ (sim1_transmit s [CMD_BLOCK_ERASE, t1, t2, t3] rx
            rxLen).2.1.status_reg = s.status_reg &&& 0xFD
        ∧ (sim1_transmit s [CMD_BLOCK_ERASE, t1, t2, t3] rx
            rxLen).2.1.status_reg &&& 0xC = s.status_reg &&& 0xC)))
    ∧ (∀ (bOk pOk : Bool) (s : Sim2) (t1 t2 t3 : Nat) (rx : Nat → Nat)
        (rxLen : Nat) (table : Nat → Option MockPage),
      s.data_input = false → s.write_enabled = true →
      (((t1 <<< 16) ||| (t2 <<< 8) ||| t3) / MOCK_PAGES_PER_BLOCK <
          s.total_blocks →
        ∀ block, block = ((t1 <<< 16) ||| (t2 <<< 8) ||| t3) /
            MOCK_PAGES_PER_BLOCK →
        s.flash block = some table →
        ((sim2_transmit bOk pOk s [CMD_BLOCK_ERASE, t1, t2, t3] rx
            rxLen).2.1.flash block = some (fun _ => none)
        ∧ (∀ b, b ≠ block →
            (sim2_transmit bOk pOk s [CMD_BLOCK_ERASE, t1, t2, t3] rx
              rxLen).2.1.flash b = s.flash b)
        ∧ (sim2_transmit bOk pOk s [CMD_BLOCK_ERASE, t1, t2, t3] rx
            rxLen).2.1.write_enabled = false
        ∧ (sim2_transmit bOk pOk s [CMD_BLOCK_ERASE, t1, t2, t3] rx
            rxLen).2.1.status_reg = s.status_reg &&& 0xFD
        ∧ (sim2_transmit bOk pOk s [CMD_BLOCK_ERASE, t1, t2, t3] rx
            rxLen).2.1.status_reg &&& 0xC = s.status_reg &&& 0xC))) := by
  refine ⟨?_, ?_, ?_⟩
  · intro q
    refine ⟨rfl, ?_, ?_⟩ <;> intro i hi <;> simp [erasePage, fillBytes, hi]
  · intro s t1 t2 t3 rx rxLen hdi hwe hb block hbk
    subst hbk
    simp only [sim1_transmit, hdi, hwe, CMD_RESET, CMD_GET_FEATURE,
      CMD_READ_ID, CMD_WRITE_ENABLE, CMD_PAGE_READ, CMD_READ_CACHE,
      CMD_PROGRAM_LOAD, CMD_RANDOM_DATA_INPUT, CMD_PROGRAM_EXECUTE,
      CMD_BLOCK_ERASE]
    norm_num [List.getD, hb]
    refine ⟨fun p hp => by simp [hp], fun b p hb2 => by simp [hb2], ?_⟩
    exact and_fd_and (by decide)
  · intro bOk pOk s t1 t2 t3 rx rxLen table hdi hwe hb block hbk htab
    subst hbk
    simp only [sim2_transmit, hdi, hwe, CMD_RESET, CMD_GET_FEATURE,
      CMD_READ_ID, CMD_WRITE_ENABLE, CMD_PAGE_READ, CMD_READ_CACHE,
      CMD_PROGRAM_LOAD, CMD_RANDOM_DATA_INPUT, CMD_PROGRAM_EXECUTE,
      CMD_BLOCK_ERASE]
    norm_num [List.getD, hb, htab]
    refine ⟨fun b hb2 => by simp [hb2], ?_⟩
    exact and_fd_and (by decide)

/-- Witness for the amended C4: erasing block 0 from a write-enabled
reset state marks page 0 erased and clears the latch. -/
theorem claim_C4_witness :
    (((sim1_transmit { sim1_reset with write_enabled := true }
      [CMD_BLOCK_ERASE, 0, 0, 0] (fun _ => 0) 0).2.1.flash 0 0).is_erased
      = true)
    ∧ ((sim1_transmit { sim1_reset with write_enabled := true }
      [CMD_BLOCK_ERASE, 0, 0, 0] (fun _ => 0) 0).2.1.write_enabled
      = false) := by
  have h := (claim_C4_erase_resets_pages).2.1
    { sim1_reset with write_enabled := true } 0 0 0 (fun _ => 0) 0 rfl rfl
    (by decide) 0 (by decide)
  refine ⟨?_, h.2.2.1⟩
  rw [h.1 0 (by decide)]
  rfl

/-- Claim C7: manufacturer id 0xEF selects the Winbond constructor
(which supplies the Winbond initialize slot and hardware-ECC layout
write); any id absent from the registry — 0x00 in particular — falls
back to the generic constructor, which succeeds with the default
2048/64/64/1024 geometry. -/
theorem claim_C7_identification :
    (findDriver 0xEF = some .winbond)
    ∧ (esp_uffs_spi_nand_init 0xEF true = (.winbond, some (ESP_OK,
        some (⟨2048, 64, 64, 1024, 0, .eccHwAuto⟩, ⟨true, false, true⟩))))
    ∧ (findDriver 0x00 = none)
    ∧ (∀ mfr, findDriver mfr = none →
        esp_uffs_spi_nand_init mfr true = (.generic, some (ESP_OK,
          some (⟨2048, 64, 64, 1024, 0, .eccNone⟩,
            ⟨false, false, false⟩)))) := by
  refine ⟨by decide, by decide, by decide, ?_⟩
  intro mfr h
  simp [esp_uffs_spi_nand_init, h, runConstructor, uffs_spi_nand_init_generic,
    ESP_OK]

/-- Witness for C7: the absent id 0x00 indeed takes the generic
fallback and succeeds. -/
theorem claim_C7_witness :
    esp_uffs_spi_nand_init 0x00 true = (.generic, some (ESP_OK,
      some (⟨2048, 64, 64, 1024, 0, .eccNone⟩, ⟨false, false, false⟩))) :=
  (claim_C7_identification).2.2.2 0x00 (by decide)

/-- Counterexample to C9 as stated: on a bus where every exchange fails
with ESP_FAIL, the Winbond initialize routine still returns 0
(success) — the failures of its reset, busy-wait and unlock exchanges
are silently discarded. -/
theorem claim_C9_counterexample :
    uffs_winbond_init_flash failBus 1 () = some (0, ()) := rfl

/-- Claim C9 as amended: bus-exchange failures inside the generic page
operations (read-page, write-page, erase-block) are propagated to the
caller as the I/O-error result, but the Winbond vendor initialize
routine discards the results of all three of its exchanges and returns
success regardless (and the identification id-read's exchange status is
likewise discarded by esp_uffs_spi_nand_init). -/
theorem claim_C9_error_propagation :
    (∀ (tick : Nat) (priv : SpiNandPriv) (block page : Nat) (dataP : Bool)
        (dBuf : Nat → Nat) (dl : Nat) (spareP : Bool) (sBuf : Nat → Nat)
        (sl : Nat),
      uffs_spi_nand_read_page_generic failBus tick priv block page dataP dBuf
        dl spareP sBuf sl () = some (.IO_ERR, dBuf, sBuf, ()))
    ∧ (∀ (tick : Nat) (priv : SpiNandPriv) (block page : Nat) (dataP : Bool)
        (data : List Nat) (spareP : Bool) (spare : List Nat),
      uffs_spi_nand_write_page_generic failBus tick priv block page dataP data
        spareP spare () = some (.IO_ERR, ()))
    ∧ (∀ (tick : Nat) (priv : SpiNandPriv) (block : Nat),
      uffs_spi_nand_erase_block_generic failBus tick priv block () =
        some (.IO_ERR, ()))
    ∧ (∀ (tick : Nat),
      uffs_winbond_init_flash failBus tick () = some (0, ())) := by
  refine ⟨?_, ?_, ?_, ?_⟩ <;> intros <;> rfl

/-- Write-enable step of the static simulator. -/
theorem sim1_we_step (s : Sim1) (rx : Nat → Nat) (rxLen : Nat)
    (h : s.data_input = false) :
    sim1_transmit s [CMD_WRITE_ENABLE] rx rxLen =
      (ESP_OK,
       { s with write_enabled := true, status_reg := s.status_reg ||| 2 },
       rx) := by
  simp [sim1_transmit, h, CMD_RESET, CMD_GET_FEATURE, CMD_READ_ID,
    CMD_WRITE_ENABLE]

/-- Program-load step: sets the column cursor, clears the cache to
all-ones and enters the data-input phase. -/
theorem sim1_pl_step (s : Sim1) (c1 c2 : Nat) (rx : Nat → Nat)
    (rxLen : Nat) (h : s.data_input = false) :
    sim1_transmit s [CMD_PROGRAM_LOAD, c1, c2] rx rxLen =
      (ESP_OK,
       { s with col := (c1 <<< 8) ||| c2, cache := fillBytes s.cache 0 MOCK_CACHE_SIZE 0xFF, data_input := true },
       rx) := by
  simp [sim1_transmit, h, CMD_RESET, CMD_GET_FEATURE, CMD_READ_ID,
    CMD_WRITE_ENABLE, CMD_PAGE_READ, CMD_READ_CACHE, CMD_PROGRAM_LOAD,
    List.getD]

/-- Random-data-input step: sets the column cursor without clearing the
cache and enters the data-input phase. -/
theorem sim1_rdi_step (s : Sim1) (c1 c2 : Nat) (rx : Nat → Nat)
    (rxLen : Nat) (h : s.data_input = false) :
    sim1_transmit s [CMD_RANDOM_DATA_INPUT, c1, c2] rx rxLen =
      (ESP_OK,
       { s with col := (c1 <<< 8) ||| c2, data_input := true },
       rx) := by
  simp [sim1_transmit, h, CMD_RESET, CMD_GET_FEATURE, CMD_READ_ID,
    CMD_WRITE_ENABLE, CMD_PAGE_READ, CMD_READ_CACHE, CMD_PROGRAM_LOAD,
    CMD_RANDOM_DATA_INPUT, List.getD]

/-- Data-input step: the payload is copied into the cache at the
column cursor. -/
theorem sim1_data_step (s : Sim1) (payload : List Nat) (rx : Nat → Nat)
    (rxLen : Nat) (h : s.data_input = true) (hp : 0 < payload.length) :
    sim1_transmit s payload rx rxLen =
      (ESP_OK, { s with
        cache := writeBytes s.cache s.col
          (payload.take (min payload.length (MOCK_CACHE_SIZE - s.col))),
        col := s.col + min payload.length (MOCK_CACHE_SIZE - s.col),
        data_input := false }, rx) := by
  simp [sim1_transmit, h, hp]

/-- Get-feature (status read) step. -/
theorem sim1_gf_step (s : Sim1) (rx : Nat → Nat) (rxLen : Nat)
    (h : s.data_input = false) (hr : 0 < rxLen) :
    sim1_transmit s [CMD_GET_FEATURE, REG_STATUS] rx rxLen =
      (ESP_OK, s, fun i => if i = 0 then s.status_reg else rx i) := by
  simp [sim1_transmit, h, hr, CMD_RESET, CMD_GET_FEATURE, REG_STATUS,
    List.getD]

/-- Program-execute step for an in-bounds decoded block. -/
theorem sim1_pe_step (s : Sim1) (t1 t2 t3 : Nat) (rx : Nat → Nat)
    (rxLen : Nat) (h : s.data_input = false) (hw : s.write_enabled = true)
    (hb : ((t1 <<< 16) ||| (t2 <<< 8) ||| t3) / MOCK_PAGES_PER_BLOCK <
      MOCK_TOTAL_BLOCKS) :
    sim1_transmit s [CMD_PROGRAM_EXECUTE, t1, t2, t3] rx rxLen =
      (ESP_OK, { s with
        flash := fun b p =>
          if b = ((t1 <<< 16) ||| (t2 <<< 8) ||| t3) / MOCK_PAGES_PER_BLOCK ∧
             p = ((t1 <<< 16) ||| (t2 <<< 8) ||| t3) % MOCK_PAGES_PER_BLOCK
          then programPage
            (s.flash (((t1 <<< 16) ||| (t2 <<< 8) ||| t3) /
                MOCK_PAGES_PER_BLOCK)
              (((t1 <<< 16) ||| (t2 <<< 8) ||| t3) % MOCK_PAGES_PER_BLOCK))
            s.cache
          else s.flash b p,
        write_enabled := false,
        status_reg := s.status_reg &&& 0xFD }, rx) := by
  simp [sim1_transmit, h, hw, hb, CMD_RESET, CMD_GET_FEATURE, CMD_READ_ID,
    CMD_WRITE_ENABLE, CMD_PAGE_READ, CMD_READ_CACHE, CMD_PROGRAM_LOAD,
    CMD_RANDOM_DATA_INPUT, CMD_PROGRAM_EXECUTE, List.getD]

/-- Page-read-to-cache step for an in-bounds decoded block. -/
theorem sim1_pr_step (s : Sim1) (t1 t2 t3 : Nat) (rx : Nat → Nat)
    (rxLen : Nat) (h : s.data_input = false)
    (hb : ((t1 <<< 16) ||| (t2 <<< 8) ||| t3) / MOCK_PAGES_PER_BLOCK <
      MOCK_TOTAL_BLOCKS) :
    sim1_transmit s [CMD_PAGE_READ, t1, t2, t3] rx rxLen =
      (ESP_OK, { s with
        cache := pageToCache
          (s.flash (((t1 <<< 16) ||| (t2 <<< 8) ||| t3) /
              MOCK_PAGES_PER_BLOCK)
            (((t1 <<< 16) ||| (t2 <<< 8) ||| t3) % MOCK_PAGES_PER_BLOCK))
          s.cache }, rx) := by
  simp [sim1_transmit, h, hb, CMD_RESET, CMD_GET_FEATURE, CMD_READ_ID,
    CMD_WRITE_ENABLE, CMD_PAGE_READ, List.getD]

/-- Read-from-cache step for an in-bounds column. -/
theorem sim1_rc_step (s : Sim1) (c1 c2 c3 : Nat) (rx : Nat → Nat)
    (rxLen : Nat) (h : s.data_input = false) (hr : 0 < rxLen)
    (hc : (c1 <<< 8) ||| c2 < MOCK_CACHE_SIZE) :
    sim1_transmit s [CMD_READ_CACHE, c1, c2, c3] rx rxLen =
      (ESP_OK, s, fun i =>
        if i < min rxLen (MOCK_CACHE_SIZE - ((c1 <<< 8) ||| c2))
        then s.cache (((c1 <<< 8) ||| c2) + i) else rx i) := by
  simp [sim1_transmit, h, hr, hc, CMD_RESET, CMD_GET_FEATURE, CMD_READ_ID,
    CMD_WRITE_ENABLE, CMD_PAGE_READ, CMD_READ_CACHE, List.getD]

/-- On the static simulator the busy bit is read straight from the
status register, so the busy-wait returns at once whenever bit 0 of the
status register is clear. -/
theorem sim1_wait (s : Sim1) (timeout tick : Nat) (outp : Bool)
    (status0 loc : Nat) (h : s.data_input = false)
    (hb : s.status_reg &&& 1 = 0) :
    spi_nand_wait_busy sim1Bus timeout tick outp status0 loc s =
      some ⟨ESP_OK, s.status_reg,
        if outp then s.status_reg else loc, s⟩ := by
  simp only [spi_nand_wait_busy, waitFuel]
  rw [show timeout / tick + 2 = (timeout / tick + 1) + 1 from rfl]
  simp only [waitBusyLoop, sim1Bus]
  rw [sim1_gf_step s _ 1 h (by decide)]
  simp [SR_BUSY, hb, ESP_OK]

/-- The cache register resulting from the generic write sequence:
program-load clears it to all-ones and deposits the data at column 0,
random-data-input then deposits the spare at the page-data column. -/
def cacheAfterLoads (c : Nat → Nat) (D S : List Nat) : Nat → Nat :=
  writeBytes (writeBytes (fillBytes c 0 MOCK_CACHE_SIZE 0xFF) 0 D)
    MOCK_PAGE_SIZE S

/-- The static-simulator state after the generic write-page sequence
(write-enable, load data, random-input spare, program-execute). -/
def sim1AfterWrite (s : Sim1) (block page : Nat) (D S : List Nat) : Sim1 :=
  { s with
    flash := fun b p => if b = block ∧ p = page
      then programPage (s.flash block page) (cacheAfterLoads s.cache D S)
      else s.flash b p,
    cache := cacheAfterLoads s.cache D S,
    col := MOCK_PAGE_SIZE + S.length,
    write_enabled := false,
    data_input := false,
    status_reg := (s.status_reg ||| 2) &&& 0xFD }

/-- Running the generic write-page against the static simulator from a
state with busy, program-fail and ECC status bits clear succeeds and
produces exactly `sim1AfterWrite`. -/
theorem sim1_write_run (s0 : Sim1) (tick block page : Nat) (D S : List Nat)
    (hdi : s0.data_input = false)
    (hst : s0.status_reg &&& 0x39 = 0)
    (hb : block < 1024) (hp : page < 64)
    (hD1 : 0 < D.length) (hD2 : D.length ≤ 2048)
    (hS1 : 0 < S.length) (hS2 : S.length ≤ 64) :
    uffs_spi_nand_write_page_generic sim1Bus tick ⟨2048, 64, 64, 1024⟩
      block page true D true S s0 =
    some (.NO_ERR, sim1AfterWrite s0 block page D S) := by
  have hpa : (block * 64 + page) % 2 ^ 32 = block * 64 + page := by omega
  have hpa2 : (block * 64 + page) % 4294967296 = block * 64 + page := by omega
  have hdec := @addr_roundtrip (block * 64 + page) (by omega)
  have hdiv : (block * 64 + page) / 64 = block := by omega
  have hmod : (block * 64 + page) % 64 = page := by omega
  have h1 : s0.status_reg &&& 1 = 0 := and_submask_zero 1 hst (by decide)
  have hbusy6 : ((s0.status_reg ||| 2) &&& 0xFD) &&& 1 = 0 := by
    rw [and_fd_and (by decide), lor_two_and (by decide)]
    exact h1
  have hpfail6 : ((s0.status_reg ||| 2) &&& 0xFD) &&& 8 = 0 := by
    rw [and_fd_and (by decide), lor_two_and (by decide)]
    exact and_submask_zero 8 hst (by decide)
  simp only [uffs_spi_nand_write_page_generic, spi_nand_write_enable,
    spi_nand_op, (show sim1Bus.transmit = sim1_transmit from rfl)]
  norm_num [hpa, hpa2, sim1_we_step, sim1_pl_step, sim1_data_step,
    sim1_rdi_step, sim1_pe_step, sim1_wait, hdi, hdec, hdiv, hmod, hb, hD1,
    hS1, ESP_OK, MOCK_CACHE_SIZE, MOCK_PAGE_SIZE, MOCK_SPARE_SIZE,
    MOCK_PAGES_PER_BLOCK, MOCK_TOTAL_BLOCKS,
    Nat.min_eq_left (show D.length ≤ 2112 by omega),
    (show ((2048 : Nat) >>> 8) &&& 255 = 8 by decide),
    (show (2048 : Nat) &&& 255 = 0 by decide),
    (show ((8 : Nat) <<< 8) ||| (0 : Nat) = 2048 by decide),
    Nat.min_eq_left (show S.length ≤ 64 from hS2),
    List.take_length, hbusy6, hpfail6, SR_P_FAIL,
    sim1AfterWrite, cacheAfterLoads]

/-- Running the generic read-page against the static simulator from a
state whose busy and ECC status bits are clear returns clean and
transfers the addressed page's data and spare slices out of the
cache. -/
theorem sim1_read_run (s : Sim1) (tick block page dl sl : Nat)
    (dBuf sBuf : Nat → Nat)
    (hdi : s.data_input = false)
    (hbusy : s.status_reg &&& 1 = 0)
    (hecc : s.status_reg &&& 0x30 = 0)
    (hb : block < 1024) (hp : page < 64)
    (hdl1 : 0 < dl) (hdl2 : dl ≤ 2112) (hsl1 : 0 < sl) (hsl2 : sl ≤ 64) :
    uffs_spi_nand_read_page_generic sim1Bus tick ⟨2048, 64, 64, 1024⟩
      block page true dBuf dl true sBuf sl s =
    some (.NO_ERR,
      (fun i => if i < dl
        then pageToCache (s.flash block page) s.cache i else dBuf i),
      (fun i => if i < sl
        then pageToCache (s.flash block page) s.cache (2048 + i)
        else sBuf i),
      { s with cache := pageToCache (s.flash block page) s.cache }) := by
  have hpa : (block * 64 + page) % 2 ^ 32 = block * 64 + page := by omega
  have hpa2 : (block * 64 + page) % 4294967296 = block * 64 + page := by omega
  have hdec := @addr_roundtrip (block * 64 + page) (by omega)
  have hdiv : (block * 64 + page) / 64 = block := by omega
  have hmod : (block * 64 + page) % 64 = page := by omega
  simp only [uffs_spi_nand_read_page_generic, spi_nand_op,
    (show sim1Bus.transmit = sim1_transmit from rfl)]
  norm_num [hpa, hpa2, sim1_pr_step, sim1_rc_step, sim1_wait, hdi, hdec,
    hdiv, hmod, hb, hdl1, hsl1, hbusy, ESP_OK, SR_ECC_MASK, hecc,
    MOCK_CACHE_SIZE, MOCK_PAGE_SIZE, MOCK_SPARE_SIZE, MOCK_PAGES_PER_BLOCK,
    MOCK_TOTAL_BLOCKS,
    (show ((2048 : Nat) >>> 8) &&& 255 = 8 by decide),
    (show (2048 : Nat) &&& 255 = 0 by decide),
    (show ((8 : Nat) <<< 8) ||| (0 : Nat) = 2048 by decide),
    (show ((0 : Nat) <<< 8) ||| (0 : Nat) = 0 by decide),
    Nat.min_eq_left (show dl ≤ 2112 from hdl2),
    Nat.min_eq_left (show sl ≤ 64 from hsl2)]

/-- Bytes are fixed points of masking with 0xFF. -/
theorem ff_and {x : Nat} (h : x < 256) : 0xFF &&& x = x := by
  rw [Nat.and_comm, and_255, Nat.mod_eq_of_lt h]

/-- Claim C3: round-trip through the generic page operations against
the static flash simulator — writing data D and spare S to an erased
in-bounds page and reading back without an intervening erase returns
the clean status and yields exactly D in the data-out buffer and S in
the spare-out buffer. -/
theorem claim_C3_write_read_roundtrip (s0 : Sim1) (tick block page : Nat)
    (D S : List Nat) (dBuf sBuf : Nat → Nat)
    (hdi : s0.data_input = false)
    (hst : s0.status_reg &&& 0x39 = 0)
    (herased : s0.flash block page = erasedPage)
    (hb : block < 1024) (hp : page < 64)
    (hD1 : 0 < D.length) (hD2 : D.length ≤ 2048)
    (hS1 : 0 < S.length) (hS2 : S.length ≤ 64)
    (hDb : ∀ x ∈ D, x < 256) (hSb : ∀ x ∈ S, x < 256) :
    ∃ s1, uffs_spi_nand_write_page_generic sim1Bus tick ⟨2048, 64, 64, 1024⟩
        block page true D true S s0 = some (.NO_ERR, s1) ∧
      ∃ q, uffs_spi_nand_read_page_generic sim1Bus tick ⟨2048, 64, 64, 1024⟩
          block page true dBuf D.length true sBuf S.length s1 = some q ∧
        q.1 = .NO_ERR ∧
        (∀ i, i < D.length → q.2.1 i = D.getD i 0) ∧
        (∀ i, i < S.length → q.2.2.1 i = S.getD i 0) := by
  have hbusy1 : ((s0.status_reg ||| 2) &&& 0xFD) &&& 1 = 0 := by
    rw [and_fd_and (by decide), lor_two_and (by decide)]
    exact and_submask_zero 1 hst (by decide)
  have hecc1 : ((s0.status_reg ||| 2) &&& 0xFD) &&& 0x30 = 0 := by
    rw [and_fd_and (by decide), lor_two_and (by decide)]
    exact and_submask_zero 0x30 hst (by decide)
  refine ⟨sim1AfterWrite s0 block page D S,
    sim1_write_run s0 tick block page D S hdi hst hb hp hD1 hD2 hS1 hS2, ?_⟩
  refine ⟨_, sim1_read_run (sim1AfterWrite s0 block page D S) tick block page
    D.length S.length dBuf sBuf rfl hbusy1 hecc1 hb hp hD1 (by omega)
    hS1 hS2, rfl, ?_, ?_⟩
  · intro i hi
    have hx : D.getD i 0 < 256 := by
      simp only [List.getD_eq_getElem?_getD, List.getElem?_eq_getElem hi,
        Option.getD_some]
      exact hDb _ (List.getElem_mem hi)
    have hi2048 : i < 2048 := by omega
    simp only [hi, if_pos]
    simp only [sim1AfterWrite, cacheAfterLoads]
    simp only [pageToCache, programPage, writeBytes, fillBytes, erasedPage,
      herased, MOCK_PAGE_SIZE, MOCK_CACHE_SIZE, MOCK_SPARE_SIZE]
    simp [hi, hi2048, Nat.not_le.mpr hi2048]
    exact ff_and (hDb _ (List.getElem_mem hi))
  · intro i hi
    have hi64 : i < 64 := by omega
    simp only [hi, if_pos]
    simp only [sim1AfterWrite, cacheAfterLoads]
    simp only [pageToCache, programPage, writeBytes, fillBytes, erasedPage,
      herased, MOCK_PAGE_SIZE, MOCK_CACHE_SIZE, MOCK_SPARE_SIZE]
    simp [hi, hi64, (show ¬ (2048 + i < 2048) by omega),
      (show 2048 + i < 2112 by omega),
      (show 2048 + i < 2048 + S.length by omega)]
    exact ff_and (hSb _ (List.getElem_mem hi))

/-- Witness for C3: writing bytes [171, 1] and spare [7] to page 0 of
block 0 from the reset simulator state and reading back returns clean
and the same bytes. -/
theorem claim_C3_witness :
    ((uffs_spi_nand_write_page_generic sim1Bus 1 ⟨2048, 64, 64, 1024⟩ 0 0
        true [171, 1] true [7] sim1_reset).bind
      (fun r => if r.1 = .NO_ERR then
        (uffs_spi_nand_read_page_generic sim1Bus 1 ⟨2048, 64, 64, 1024⟩ 0 0
          true (fun _ => 0) 2 true (fun _ => 0) 1 r.2).map
            (fun q => (q.1, q.2.1 0, q.2.1 1, q.2.2.1 0))
        else none)) =
    some (.NO_ERR, 171, 1, 7) := by
  obtain ⟨s1, hw, q, hr, h1, hd, hs⟩ :=
    claim_C3_write_read_roundtrip sim1_reset 1 0 0 [171, 1] [7]
      (fun _ => 0) (fun _ => 0) rfl (by decide) rfl (by decide) (by decide)
      (by decide) (by decide) (by decide) (by decide) (by decide) (by decide)
  rw [hw]
  simp only [Option.some_bind, reduceIte]
  norm_num at hr hd hs
  rw [hr]
  simp only [Option.map_some']
  rw [h1, hd 0 (by decide), hd 1 (by decide), hs]
  rfl

end EspUffs
